import Mathlib

/-!
Verification of the tagged-union value model of `src/rlp/v1/object_fwd.h`
(repository PaytonWu/rlp-c).

The supplied source is a forward-declaration header: the view structs
(`object_array`, `object_map`, `object_str`, `object_bin`, `object_ext`),
the `object` tagged union with its member declarations, the inline bodies
of `is_nil`, `object_ext::type` and `object_ext::data`, the SFINAE
conditions on the `convert` overloads, and `class type_error`.  The bodies
of the conversion templates (`as<T>`, `convert`, `convert_if_not_nil`), of
the constructors, and the `object_type` enum live in headers of this
repository that are not part of the supplied material; those parts are
modelled from the specification and are marked `Modelled from the spec:`
in their doc comments.

Pointers are embedded as abstract addresses (`Nat`); byte memory, where a
claim needs it (the extension view reads `ptr[0]`), is an explicit
function `Nat → Nat` of byte values.  Machine integers are `Nat`/`Int`
with explicit range conditions.  A failed conversion returns
`Except.error type_error.mk`, mirroring a thrown `rlp::type_error`.
-/

set_option autoImplicit false

namespace RlpSpec

/-- Modelled from the spec: the `Kind` discriminator (§3 DATA MODEL).  The
C++ enum `msgpack::type::object_type` is declared in `object_fwd_decl.h`,
which is not part of the supplied source; the spec lists the ten kinds
Nil, Bool, UInt, Int, Float64, Str, Bin, Array, Map, Ext. -/
inductive object_type where
  | NIL
  | BOOLEAN
  | UINT
  | INT
  | FLOAT64
  | STR
  | BIN
  | ARRAY
  | MAP
  | EXT
  deriving DecidableEq

/-- `object_array` from `object_fwd.h` lines 17-20: `{uint32_t size; object* ptr;}`.
The element pointer is embedded as an abstract address. -/
structure object_array where
  size : Nat
  ptr : Nat
  deriving DecidableEq

/-- `object_map` from `object_fwd.h` lines 22-25: `{uint32_t size; object_kv* ptr;}`. -/
structure object_map where
  size : Nat
  ptr : Nat
  deriving DecidableEq

/-- `object_str` from `object_fwd.h` lines 27-30: `{uint32_t size; const char* ptr;}`. -/
structure object_str where
  size : Nat
  ptr : Nat
  deriving DecidableEq

/-- `object_bin` from `object_fwd.h` lines 32-35: `{uint32_t size; const char* ptr;}`. -/
structure object_bin where
  size : Nat
  ptr : Nat
  deriving DecidableEq

/-- `object_ext` from `object_fwd.h` lines 37-42: `{uint32_t size; const char* ptr;}`
plus the inline accessors `type()` and `data()` (embedded below). -/
structure object_ext where
  size : Nat
  ptr : Nat
  deriving DecidableEq

/-- The active member of `object::union_type` (`object_fwd.h` lines 66-80).
A C++ union holds one member at a time; the embedding makes the active
member explicit.  The deprecated legacy alias `dec` for the float member
(guarded by `RLP_USE_LEGACY_NAME_AS_FLOAT`) is the same storage as `f64`
and is not modelled separately. -/
inductive union_type where
  | boolean (b : Bool)
  | u64 (n : Nat)
  | i64 (i : Int)
  | f64 (x : Float)
  | array (a : object_array)
  | map (m : object_map)
  | str (s : object_str)
  | bin (b : object_bin)
  | ext (e : object_ext)

/-- `object` from `object_fwd.h` lines 65-224: the tag `type` and the
union `via`. -/
structure object where
  type : object_type
  via : union_type

/-- `object::is_nil` from `object_fwd.h` line 89:
`bool is_nil() const { return type == msgpack::type::NIL; }`. -/
def object.is_nil (o : object) : Bool :=
  o.type == object_type.NIL

/-- `class type_error : public std::bad_cast { }` from `object_fwd.h`
line 226: an exception class with an empty body, hence no payload beyond
the fact of failure. -/
inductive type_error where
  | mk
  deriving DecidableEq

/-- Modelled from the spec: the default constructor `object()` declared at
`object_fwd.h` lines 169-170; its body is not in the supplied source.  Its
doc comment says "The object is set to nil."; the union member is
meaningless under the `NIL` tag and is set to a zero integer. -/
def object.default_object : object :=
  { type := object_type.NIL, via := union_type.u64 0 }

/-- Bit widths of the native integer family (8, 16, 32, 64). -/
inductive width where
  | w8
  | w16
  | w32
  | w64
  deriving DecidableEq

/-- Number of value bits of a width. -/
def width.bits : width → Nat
  | width.w8 => 8
  | width.w16 => 16
  | width.w32 => 32
  | width.w64 => 64

/-- A native scalar target type `T` of the generic conversion path:
`bool`, the unsigned and signed integer families, and `double`. -/
inductive scalar_ty where
  | tbool
  | tuint (w : width)
  | tint (w : width)
  | tfloat
  deriving DecidableEq

/-- A value of a native scalar type.  `vuint w n` is meaningful when
`n < 2 ^ w.bits`; `vint w i` when `-2 ^ (w.bits - 1) ≤ i < 2 ^ (w.bits - 1)`
(see `scalar_value.wf`). -/
inductive scalar_value where
  | vbool (b : Bool)
  | vuint (w : width) (n : Nat)
  | vint (w : width) (i : Int)
  | vfloat (x : Float)

/-- A `scalar_value` denotes a genuine machine value of its type: the
integer payloads lie in the range of their width. -/
def scalar_value.wf : scalar_value → Prop
  | scalar_value.vbool _ => True
  | scalar_value.vuint w n => n < 2 ^ w.bits
  | scalar_value.vint w i => -(2 ^ (w.bits - 1) : Int) ≤ i ∧ i < 2 ^ (w.bits - 1)
  | scalar_value.vfloat _ => True

instance scalar_value.decidable_wf : (s : scalar_value) → Decidable s.wf
  | scalar_value.vbool _ => inferInstanceAs (Decidable True)
  | scalar_value.vuint w n => inferInstanceAs (Decidable (n < 2 ^ w.bits))
  | scalar_value.vint w i =>
      inferInstanceAs (Decidable (-(2 ^ (w.bits - 1) : Int) ≤ i ∧ i < 2 ^ (w.bits - 1)))
  | scalar_value.vfloat _ => inferInstanceAs (Decidable True)

/-- The native type of a scalar value. -/
def scalar_value.ty : scalar_value → scalar_ty
  | scalar_value.vbool _ => scalar_ty.tbool
  | scalar_value.vuint w _ => scalar_ty.tuint w
  | scalar_value.vint w _ => scalar_ty.tint w
  | scalar_value.vfloat _ => scalar_ty.tfloat

/-- Modelled from the spec: `object::object(const T&)` declared at
`object_fwd.h` lines 183-184; the template body is not in the supplied
source.  Spec §4.1: construction from a native scalar "selects the
matching `Kind` and stores the payload" by value — `bool` to `Bool`,
unsigned integers to `UInt` (stored widened to the 64-bit union member),
signed integers to `Int`, floating point to `Float64`. -/
def object.from_scalar : scalar_value → object
  | scalar_value.vbool b => { type := object_type.BOOLEAN, via := union_type.boolean b }
  | scalar_value.vuint _ n => { type := object_type.UINT, via := union_type.u64 n }
  | scalar_value.vint _ i => { type := object_type.INT, via := union_type.i64 i }
  | scalar_value.vfloat x => { type := object_type.FLOAT64, via := union_type.f64 x }

/-- Modelled from the spec: the default value a caller-supplied `T out;`
destination starts from before `convert(out)` runs (value-initialized). -/
def scalar_ty.default_value : scalar_ty → scalar_value
  | scalar_ty.tbool => scalar_value.vbool false
  | scalar_ty.tuint w => scalar_value.vuint w 0
  | scalar_ty.tint w => scalar_value.vint w 0
  | scalar_ty.tfloat => scalar_value.vfloat 0.0

/-- Modelled from the spec: the generic path of
`object::convert(T&)` (`object_fwd.h` lines 131-136; the adaptor bodies
are not in the supplied source).  Spec §4.1: the stored `Kind` must
exactly match the requested `T`'s natural kind or be numerically
compatible (`UInt` to `Int` when representable, `Int`/`UInt` to `Float64`
when requested); a narrowing conversion that would lose information
signals `TypeError`.  `Int` to `UInt` is left open by the spec (§9) and is
modelled as a mismatch.  On success `out` is overwritten with the
converted value; on failure `type_error` is signalled. -/
def object.convert_to (o : object) (t : scalar_ty) (_out : scalar_value) :
    Except type_error scalar_value :=
  match t, o.type, o.via with
  | scalar_ty.tbool, object_type.BOOLEAN, union_type.boolean b =>
      Except.ok (scalar_value.vbool b)
  | scalar_ty.tuint w, object_type.UINT, union_type.u64 n =>
      if n < 2 ^ w.bits then Except.ok (scalar_value.vuint w n)
      else Except.error type_error.mk
  | scalar_ty.tint w, object_type.INT, union_type.i64 i =>
      if -(2 ^ (w.bits - 1) : Int) ≤ i ∧ i < 2 ^ (w.bits - 1) then
        Except.ok (scalar_value.vint w i)
      else Except.error type_error.mk
  | scalar_ty.tint w, object_type.UINT, union_type.u64 n =>
      if (n : Int) < 2 ^ (w.bits - 1) then Except.ok (scalar_value.vint w (n : Int))
      else Except.error type_error.mk
  | scalar_ty.tfloat, object_type.FLOAT64, union_type.f64 x =>
      Except.ok (scalar_value.vfloat x)
  | scalar_ty.tfloat, object_type.UINT, union_type.u64 n =>
      Except.ok (scalar_value.vfloat (Float.ofNat n))
  | scalar_ty.tfloat, object_type.INT, union_type.i64 i =>
      Except.ok (scalar_value.vfloat (Float.ofInt i))
  | _, _, _ => Except.error type_error.mk

/-- Modelled from the spec: the generic path of `object::as<T>()`
(`object_fwd.h` lines 110-120; the body is not in the supplied source).
`as<T>` materialises a destination `T v;` itself, converts into it and
returns it, so it is `convert_to` run on a value-initialized
destination. -/
def object.as_scalar (o : object) (t : scalar_ty) : Except type_error scalar_value :=
  o.convert_to t t.default_value

/-- Modelled from the spec: the declarative compatibility table of the
generic path (spec §4.1 and §8).  `lossless_target o t` holds exactly when
the stored kind matches `t`'s natural kind — or is one of the numeric
compatibilities the spec lists (`UInt` to `Int`, `Int`/`UInt` to
`Float64`) — and the stored numeric value is representable in `t` without
loss. -/
def object.lossless_target (o : object) (t : scalar_ty) : Bool :=
  match t, o.type, o.via with
  | scalar_ty.tbool, object_type.BOOLEAN, union_type.boolean _ => true
  | scalar_ty.tuint w, object_type.UINT, union_type.u64 n => decide (n < 2 ^ w.bits)
  | scalar_ty.tint w, object_type.INT, union_type.i64 i =>
      decide (-(2 ^ (w.bits - 1) : Int) ≤ i ∧ i < 2 ^ (w.bits - 1))
  | scalar_ty.tint w, object_type.UINT, union_type.u64 n => decide ((n : Int) < 2 ^ (w.bits - 1))
  | scalar_ty.tfloat, object_type.FLOAT64, union_type.f64 _ => true
  | scalar_ty.tfloat, object_type.UINT, union_type.u64 _ => true
  | scalar_ty.tfloat, object_type.INT, union_type.i64 _ => true
  | _, _, _ => false

/-- Modelled from the spec: `object::convert_if_not_nil(T&)` declared at
`object_fwd.h` lines 166-167; the body is not in the supplied source.  Its
doc comment (lines 159-165): if the object is nil, return `false` and
leave `v` alone; otherwise convert into `v` (throwing `type_error` on
mismatch) and return `true`.  The result pairs the returned `Bool` with
the final contents of the destination. -/
def object.convert_if_not_nil (o : object) (t : scalar_ty) (out : scalar_value) :
    Except type_error (Bool × scalar_value) :=
  if o.is_nil then Except.ok (false, out)
  else
    match o.convert_to t out with
    | Except.ok v => Except.ok (true, v)
    | Except.error e => Except.error e

/-- The natural `Kind` of a scalar target type (spec §4.1: the stored
`Kind` "must exactly match ... the requested `T`'s natural kind"). -/
def scalar_ty.natural_kind : scalar_ty → object_type
  | scalar_ty.tbool => object_type.BOOLEAN
  | scalar_ty.tuint _ => object_type.UINT
  | scalar_ty.tint _ => object_type.INT
  | scalar_ty.tfloat => object_type.FLOAT64

/-- C1: on the generic path, whenever the stored kind does not match the
requested scalar type's natural kind (nor a numerically compatible one),
or the stored numeric value is not representable in the target without
loss, `as<T>` signals `TypeError`; in particular, for the value
constructed from unsigned integer 300, `as<uint8_t>` signals `TypeError`
while `as<uint16_t>` returns 300. -/
theorem c1_mismatch_or_narrowing_signals_type_error :
    (∀ (o : object) (t : scalar_ty), o.lossless_target t = false →
        o.as_scalar t = Except.error type_error.mk)
    ∧ (object.from_scalar (scalar_value.vuint width.w16 300)).as_scalar
        (scalar_ty.tuint width.w8) = Except.error type_error.mk
    ∧ (object.from_scalar (scalar_value.vuint width.w16 300)).as_scalar
        (scalar_ty.tuint width.w16) = Except.ok (scalar_value.vuint width.w16 300) := by
  refine ⟨?_, by rfl, by rfl⟩
  intro o t h
  obtain ⟨ty, v⟩ := o
  cases t <;> cases ty <;> cases v <;>
    simp_all [object.as_scalar, object.convert_to, object.lossless_target,
      scalar_ty.default_value]

/-- Witness for C1: the value built from unsigned 300 is not losslessly
representable as `uint8_t`, and the theorem's general part yields the
`TypeError` there. -/
theorem c1_witness :
    (object.from_scalar (scalar_value.vuint width.w16 300)).lossless_target
      (scalar_ty.tuint width.w8) = false
    ∧ (object.from_scalar (scalar_value.vuint width.w16 300)).as_scalar
        (scalar_ty.tuint width.w8) = Except.error type_error.mk :=
  ⟨by decide, c1_mismatch_or_narrowing_signals_type_error.1 _ _ (by decide)⟩

/-- C2: for every scalar type and every value constructed directly from a
native scalar of that type, extracting at the same type succeeds and
returns the original scalar (construction/extraction round-trip). -/
theorem c2_scalar_roundtrip (s : scalar_value) (h : s.wf) :
    (object.from_scalar s).as_scalar s.ty = Except.ok s := by
  cases s <;>
    simp_all [object.as_scalar, object.convert_to, object.from_scalar,
      scalar_value.ty, scalar_value.wf, scalar_ty.default_value]

/-- Witness for C2: the round-trip at the concrete native `uint16_t`
value 300. -/
theorem c2_witness :
    (scalar_value.vuint width.w16 300).wf
    ∧ (object.from_scalar (scalar_value.vuint width.w16 300)).as_scalar
        (scalar_value.vuint width.w16 300).ty
        = Except.ok (scalar_value.vuint width.w16 300) :=
  ⟨by decide, c2_scalar_roundtrip (scalar_value.vuint width.w16 300) (by decide)⟩

/-- C3: for every value, target type and destination, if the value is nil
then `convert_if_not_nil` returns `false` and leaves the destination
unmodified; if it is not nil it returns `true` and writes into the
destination exactly the result `convert` would produce, signalling
`TypeError` in exactly the cases `convert` would. -/
theorem c3_convert_if_not_nil_spec (o : object) (t : scalar_ty) (out : scalar_value) :
    (o.is_nil = true → o.convert_if_not_nil t out = Except.ok (false, out))
    ∧ (o.is_nil = false →
        o.convert_if_not_nil t out =
          match o.convert_to t out with
          | Except.ok v => Except.ok (true, v)
          | Except.error e => Except.error e) := by
  constructor <;> intro h <;> simp [object.convert_if_not_nil, h]

/-- Witness for C3: the nil branch at the default (nil) object, and the
non-nil branch at a value constructed from `true`. -/
theorem c3_witness :
    (object.default_object.is_nil = true
      ∧ object.default_object.convert_if_not_nil scalar_ty.tbool (scalar_value.vbool true)
          = Except.ok (false, scalar_value.vbool true))
    ∧ ((object.from_scalar (scalar_value.vbool true)).is_nil = false
      ∧ (object.from_scalar (scalar_value.vbool true)).convert_if_not_nil
            scalar_ty.tbool (scalar_value.vbool false)
          = match (object.from_scalar (scalar_value.vbool true)).convert_to
                scalar_ty.tbool (scalar_value.vbool false) with
            | Except.ok v => Except.ok (true, v)
            | Except.error e => Except.error e) :=
  ⟨⟨by rfl, (c3_convert_if_not_nil_spec _ _ _).1 (by rfl)⟩,
   ⟨by rfl, (c3_convert_if_not_nil_spec _ _ _).2 (by rfl)⟩⟩

/-- C4: for every non-nil value whose stored kind exactly matches the
natural kind of the requested scalar type, `convert` into any destination
and `as<T>` produce the same result (the value written to the destination
equals the value `as<T>` returns, and they signal `TypeError` in the same
cases). -/
theorem c4_convert_agrees_with_as (o : object) (t : scalar_ty) (out : scalar_value)
    (hnil : o.is_nil = false) (hkind : o.type = t.natural_kind) :
    o.convert_to t out = o.as_scalar t := by
  obtain ⟨ty, v⟩ := o
  cases t <;> cases ty <;> cases v <;> rfl

/-- Witness for C4: `convert` and `as` agree at the value constructed from
`uint8_t` 7 requested back as `uint8_t`, whatever the destination held. -/
theorem c4_witness :
    (object.from_scalar (scalar_value.vuint width.w8 7)).is_nil = false
    ∧ (object.from_scalar (scalar_value.vuint width.w8 7)).type
        = (scalar_ty.tuint width.w8).natural_kind
    ∧ (object.from_scalar (scalar_value.vuint width.w8 7)).convert_to
          (scalar_ty.tuint width.w8) (scalar_value.vbool false)
        = (object.from_scalar (scalar_value.vuint width.w8 7)).as_scalar
          (scalar_ty.tuint width.w8) :=
  ⟨by rfl, by rfl,
    c4_convert_agrees_with_as _ (scalar_ty.tuint width.w8) (scalar_value.vbool false)
      (by rfl) (by rfl)⟩

/-- C9: a default-constructed object is nil: `is_nil` returns `true` and
every scalar conversion on the generic path signals `TypeError`. -/
theorem c9_default_object_is_nil :
    object.default_object.is_nil = true
    ∧ ∀ t : scalar_ty, object.default_object.as_scalar t = Except.error type_error.mk := by
  refine ⟨by rfl, ?_⟩
  intro t
  cases t <;> rfl

/-- C7: for every value `v`, `is_nil v` returns `true` if and only if the
active tag of `v` is the `Nil` kind.  `is_nil` is a total pure function of
the object, so it never fails and never modifies its argument. -/
theorem c7_is_nil_iff_tag_nil (o : object) :
    o.is_nil = true ↔ o.type = object_type.NIL := by
  cases o with
  | mk t v =>
    cases t <;> simp [object.is_nil]

/-- C10: the `type_error` signal carries no payload: any two values of the
exception type are equal, so a failed conversion can report only the fact
of failure, never the stored kind or the requested target type. -/
theorem c10_type_error_carries_no_payload (e e₂ : type_error) : e = e₂ := by
  cases e
  cases e₂
  rfl

/-- Member-wise duplication of the active union member: each view is
copied as its `(size, ptr)` pair — the length and the pointer — and the
pointed-to bytes/elements are not touched (there is no dereference
here). -/
def union_type.copy : union_type → union_type
  | union_type.boolean b => union_type.boolean b
  | union_type.u64 n => union_type.u64 n
  | union_type.i64 i => union_type.i64 i
  | union_type.f64 x => union_type.f64 x
  | union_type.array a => union_type.array { size := a.size, ptr := a.ptr }
  | union_type.map m => union_type.map { size := m.size, ptr := m.ptr }
  | union_type.str s => union_type.str { size := s.size, ptr := s.ptr }
  | union_type.bin b => union_type.bin { size := b.size, ptr := b.ptr }
  | union_type.ext e => union_type.ext { size := e.size, ptr := e.ptr }

/-- Modelled from the spec: the copy constructor
`object(const msgpack_object&)` declared at `object_fwd.h` lines 172-173;
its body is not in the supplied source.  Its doc comment says "Object is
shallow copied.": the tag and the active union member (for views, the
`(size, ptr)` pair) are duplicated, the pointed-to storage is not. -/
def object.copy (o : object) : object :=
  { type := o.type, via := o.via.copy }

/-- The view pointer of the active union member, when the active member is
a view (`str`/`bin`/`array`/`map`/`ext`). -/
def object.view_ptr (o : object) : Option Nat :=
  match o.via with
  | union_type.array a => some a.ptr
  | union_type.map m => some m.ptr
  | union_type.str s => some s.ptr
  | union_type.bin b => some b.ptr
  | union_type.ext e => some e.ptr
  | _ => none

/-- The view length of the active union member, when the active member is
a view. -/
def object.view_size (o : object) : Option Nat :=
  match o.via with
  | union_type.array a => some a.size
  | union_type.map m => some m.size
  | union_type.str s => some s.size
  | union_type.bin b => some b.size
  | union_type.ext e => some e.size
  | _ => none

/-- C5: copying a value of kind `Str`, `Bin`, `Array` or `Map` yields a
value with the same tag, the same view length, and a view pointer equal
(as a pointer) to the original's — the pointed-to bytes/elements are never
duplicated, since only the `(size, ptr)` pair is copied. -/
theorem c5_copy_is_shallow (o : object)
    (h : o.type = object_type.STR ∨ o.type = object_type.BIN
      ∨ o.type = object_type.ARRAY ∨ o.type = object_type.MAP) :
    o.copy.type = o.type ∧ o.copy.view_size = o.view_size
      ∧ o.copy.view_ptr = o.view_ptr := by
  obtain ⟨ty, v⟩ := o
  cases v <;>
    simp [object.copy, union_type.copy, object.view_ptr, object.view_size]

/-- Witness for C5: copying a concrete `Str` view of length 3 at address
100 preserves tag, length and pointer. -/
theorem c5_witness :
    ((object.mk object_type.STR (union_type.str { size := 3, ptr := 100 })).type
        = object_type.STR
      ∨ (object.mk object_type.STR (union_type.str { size := 3, ptr := 100 })).type
        = object_type.BIN
      ∨ (object.mk object_type.STR (union_type.str { size := 3, ptr := 100 })).type
        = object_type.ARRAY
      ∨ (object.mk object_type.STR (union_type.str { size := 3, ptr := 100 })).type
        = object_type.MAP)
    ∧ ((object.mk object_type.STR (union_type.str { size := 3, ptr := 100 })).copy.type
        = (object.mk object_type.STR (union_type.str { size := 3, ptr := 100 })).type
      ∧ (object.mk object_type.STR (union_type.str { size := 3, ptr := 100 })).copy.view_size
        = (object.mk object_type.STR (union_type.str { size := 3, ptr := 100 })).view_size
      ∧ (object.mk object_type.STR (union_type.str { size := 3, ptr := 100 })).copy.view_ptr
        = (object.mk object_type.STR (union_type.str { size := 3, ptr := 100 })).view_ptr) :=
  ⟨Or.inl (by decide),
    c5_copy_is_shallow (object.mk object_type.STR (union_type.str { size := 3, ptr := 100 }))
      (Or.inl (by decide))⟩

/-- Reading one byte of backing storage through a `const char*`: the cell
content reduced to a byte value. -/
def read_byte (mem : Nat → Nat) (a : Nat) : Nat :=
  mem a % 256

/-- `static_cast<int8_t>` of a byte (`object_fwd.h` line 38): values below
128 map to themselves, values 128..255 to their two's-complement negative. -/
def char_to_int8 (b : Nat) : Int :=
  if b % 256 < 128 then (b % 256 : Int) else (b % 256 : Int) - 256

/-- `object_ext::type` from `object_fwd.h` line 38:
`int8_t type() const { return static_cast<int8_t>(ptr[0]); }` — byte 0 of
the backing storage, read as a signed 8-bit subtype code. -/
def object_ext.type (mem : Nat → Nat) (e : object_ext) : Int :=
  char_to_int8 (read_byte mem e.ptr)

/-- `object_ext::data` from `object_fwd.h` line 39:
`const char* data() const { return &ptr[1]; }` — the address of byte 1. -/
def object_ext.data (e : object_ext) : Nat :=
  e.ptr + 1

/-- The payload of an extension view: the `size - 1` bytes starting at
`data()`, i.e. bytes `[1, size)` of the backing storage (spec §4.2,
`data_payload()`). -/
def object_ext.data_payload (mem : Nat → Nat) (e : object_ext) : List Nat :=
  (List.range (e.size - 1)).map (fun i => read_byte mem (e.data + i))

/-- Modelled from the spec: the backing storage an extension constructor
(the decoder/zone construction path, absent from the supplied source)
fills at address `p`: the subtype byte `tb` at offset 0 followed by the
payload bytes at offsets 1..payload.length. -/
def ext_write (tb : Nat) (payload : List Nat) (p : Nat) (mem : Nat → Nat) : Nat → Nat :=
  fun a =>
    if a = p then tb
    else if p < a ∧ a ≤ p + payload.length then payload.getD (a - p - 1) 0
    else mem a

/-- Modelled from the spec: the extension view an extension constructor
produces over that storage — `size` counts the subtype byte plus the
payload, so it is always at least 1 (spec §4.2: a zero-length extension is
invalid and constructors never produce one). -/
def object_ext.make (payload_len : Nat) (p : Nat) : object_ext :=
  { size := payload_len + 1, ptr := p }

/-- C6: every extension view produced by the modelled constructor has
length at least 1 (so a zero-length extension is never produced); its
`type()` is byte 0 of the backing storage read as a signed 8-bit subtype
code, and its payload accessor returns exactly the bytes at indices
`[1, length)` — the original payload. -/
theorem c6_ext_view_spec (tb : Nat) (payload : List Nat) (p : Nat) (mem : Nat → Nat)
    (_htb : tb < 256) (hpl : ∀ b ∈ payload, b < 256) :
    1 ≤ (object_ext.make payload.length p).size
    ∧ (object_ext.make payload.length p).type (ext_write tb payload p mem)
        = char_to_int8 tb
    ∧ (object_ext.make payload.length p).data_payload (ext_write tb payload p mem)
        = payload := by
  refine ⟨by simp [object_ext.make], ?_, ?_⟩
  · simp [object_ext.make, object_ext.type, read_byte, ext_write, char_to_int8]
  · apply List.ext_getElem
    · simp [object_ext.data_payload, object_ext.make]
    · intro i h1 h2
      have hi : i < payload.length := by
        simpa [object_ext.data_payload, object_ext.make] using h1
      simp only [object_ext.data_payload, object_ext.make, object_ext.data,
        List.getElem_map, List.getElem_range, read_byte, ext_write]
      rw [if_neg (by omega), if_pos ⟨by omega, by omega⟩]
      have hidx : p + 1 + i - p - 1 = i := by omega
      rw [hidx, List.getD_eq_getElem payload 0 hi]
      exact Nat.mod_eq_of_lt (hpl _ (payload.getElem_mem hi))

/-- Witness for C6: the extension built from subtype byte 200 (code -56)
and payload `[1, 2]` at address 5 over zeroed memory. -/
theorem c6_witness :
    (200 < 256 ∧ ∀ b ∈ [1, 2], b < 256)
    ∧ (1 ≤ (object_ext.make (List.length [1, 2]) 5).size
      ∧ (object_ext.make (List.length [1, 2]) 5).type
          (ext_write 200 [1, 2] 5 (fun _ => 0)) = char_to_int8 200
      ∧ (object_ext.make (List.length [1, 2]) 5).data_payload
          (ext_write 200 [1, 2] 5 (fun _ => 0)) = [1, 2]) :=
  ⟨⟨by decide, by decide⟩,
    c6_ext_view_spec 200 [1, 2] 5 (fun _ => 0) (by decide) (by decide)⟩

/-- The shape of a candidate target type `T` of `convert`, as the
`enable_if` conditions at `object_fwd.h` lines 131-157 see it: an ordinary
value/class type, a raw array type, or a raw pointer type. -/
inductive cpp_ty_shape where
  | value_ty
  | array_ty
  | pointer_ty
  deriving DecidableEq

/-- `msgpack::is_array<T>` as used at `object_fwd.h` line 133. -/
def is_array : cpp_ty_shape → Bool
  | cpp_ty_shape.array_ty => true
  | _ => false

/-- `msgpack::is_pointer<T>` as used at `object_fwd.h` lines 133 and 153. -/
def is_pointer : cpp_ty_shape → Bool
  | cpp_ty_shape.pointer_ty => true
  | _ => false

/-- The primary reference overload `convert(T&)` (`object_fwd.h` lines
131-136) participates in overload resolution exactly when
`!is_array<T> && !is_pointer<T>`. -/
def convert_ref_accepts (t : cpp_ty_shape) : Bool :=
  !(is_array t) && !(is_pointer t)

/-- The explicit array-reference overload `T(&convert(T(&v)[N]) const)[N]`
(`object_fwd.h` lines 138-139) binds exactly raw array types. -/
def convert_array_ref_accepts (t : cpp_ty_shape) : Bool :=
  is_array t

/-- The deprecated legacy pointer overload `convert(T)` with
`enable_if<is_pointer<T>>` (`object_fwd.h` lines 142-157): it exists
unless the build defines `RLP_DISABLE_LEGACY_CONVERT`, and accepts exactly
raw pointer types. -/
def convert_legacy_accepts (legacy_disabled : Bool) (t : cpp_ty_shape) : Bool :=
  !legacy_disabled && is_pointer t

/-- C8 counterexample: in the default configuration (the build does not
define `RLP_DISABLE_LEGACY_CONVERT`), a raw-pointer target type IS
accepted by an overload of `convert` — the deprecated legacy pointer
overload — which is not the array-reference overload, contradicting the
claim that no overload but the array-reference one accepts such a type. -/
theorem c8_counterexample :
    convert_legacy_accepts false cpp_ty_shape.pointer_ty = true
    ∧ convert_array_ref_accepts cpp_ty_shape.pointer_ty = false := by
  decide

/-- C8 (amended): for raw-array and raw-pointer target types the primary
reference overload of `convert` is disabled at compile time; a raw-array
type is accepted only by the explicit array-reference overload, and a
raw-pointer type is accepted only by the deprecated legacy pointer
overload, which exists exactly when `RLP_DISABLE_LEGACY_CONVERT` is not
defined. -/
theorem c8_amended_overload_discipline (t : cpp_ty_shape) (legacy_disabled : Bool)
    (h : is_array t = true ∨ is_pointer t = true) :
    convert_ref_accepts t = false
    ∧ (convert_array_ref_accepts t = true ↔ t = cpp_ty_shape.array_ty)
    ∧ (convert_legacy_accepts legacy_disabled t = true ↔
        (t = cpp_ty_shape.pointer_ty ∧ legacy_disabled = false)) := by
  cases t <;> cases legacy_disabled <;>
    simp_all [convert_ref_accepts, convert_array_ref_accepts, convert_legacy_accepts,
      is_array, is_pointer]

/-- Witness for C8 (amended): the raw-array shape with the legacy overload
disabled. -/
theorem c8_witness :
    (is_array cpp_ty_shape.array_ty = true ∨ is_pointer cpp_ty_shape.array_ty = true)
    ∧ (convert_ref_accepts cpp_ty_shape.array_ty = false
      ∧ (convert_array_ref_accepts cpp_ty_shape.array_ty = true
          ↔ cpp_ty_shape.array_ty = cpp_ty_shape.array_ty)
      ∧ (convert_legacy_accepts true cpp_ty_shape.array_ty = true
          ↔ (cpp_ty_shape.array_ty = cpp_ty_shape.pointer_ty ∧ true = false))) :=
  ⟨Or.inl (by decide),
    c8_amended_overload_discipline cpp_ty_shape.array_ty true (Or.inl (by decide))⟩

end RlpSpec
